import Mathlib

/-!
Verification of the weechat relay client core (`weesels-rs`).

This file shallowly embeds the parts of the source relevant to the frozen
claims:

* `src/wee/auth.rs`  — the authenticator (`_create_auth`); the openssl
  SHA-256 / SHA-512 hashers are modelled by reference implementations of
  the FIPS 180-4 functions over byte lists (`Nat` < 256 per byte).
* `src/wee/mod.rs`   — the session engine (`Wee`), its dispatch on decoded
  frames (`Wee.handle_one`) and the color stripper (`strip_colors`).
* `src/wee/de.rs`    — the whole-message decode entry point (`from_bytes`)
  and the primitive readers used by its concrete instantiation.

Rust aborts (`assert_eq` failures and `unwrap` on `None`) are modelled as
explicit error values (`HandleError.assertFail` / `HandleError.unwrapNone`), kept
distinct from the `Error::ProtocolError` variant of the source's error
enum.  Machine integers that can only hold small counters are modelled as
`Int`/`Nat`; 32/64-bit wraparound is made explicit (`% 2^32`, `% 2^64`)
inside the hash functions where it matters.
-/

deriving instance DecidableEq for Except

namespace Weesels

/-! ## Bytes, hex and UTF-8 helpers -/

/-- Big-endian encoding of `x` on `n` bytes. -/
def beBytes (n : Nat) (x : Nat) : List Nat :=
  (List.range n).map (fun i => (x >>> (8 * (n - 1 - i))) % 256)

def hexDigit (n : Nat) : Char :=
  ("0123456789abcdef".toList).getD n '0'

def hexByte (b : Nat) : List Char :=
  [hexDigit (b / 16), hexDigit (b % 16)]

/-- Lowercase hex encoding of a byte list (Rust `hex::encode`). -/
def hex_encode (bytes : List Nat) : String :=
  ((bytes.map hexByte).flatten).asString

def hexVal (c : Char) : Option Nat :=
  if '0' ≤ c ∧ c ≤ '9' then some (c.toNat - 48)
  else if 'a' ≤ c ∧ c ≤ 'f' then some (c.toNat - 87)
  else if 'A' ≤ c ∧ c ≤ 'F' then some (c.toNat - 55)
  else none

def hexDecodeChars : List Char → Option (List Nat)
  | [] => some []
  | c1 :: c2 :: rest => do
      let hi ← hexVal c1
      let lo ← hexVal c2
      let tail ← hexDecodeChars rest
      some ((hi * 16 + lo) :: tail)
  | [_] => none

/-- Rust `hex::decode`: pairs of hex digits to bytes; odd length or a
non-hex character is an error (`none`). -/
def hex_decode (s : String) : Option (List Nat) :=
  hexDecodeChars s.toList

/-- UTF-8 encoding of one code point. -/
def utf8Bytes (c : Nat) : List Nat :=
  if c < 0x80 then [c]
  else if c < 0x800 then [0xC0 + c / 64, 0x80 + c % 64]
  else if c < 0x10000 then [0xE0 + c / 4096, 0x80 + c / 64 % 64, 0x80 + c % 64]
  else [0xF0 + c / 262144, 0x80 + c / 4096 % 64, 0x80 + c / 64 % 64, 0x80 + c % 64]

/-- The UTF-8 bytes of a string (Rust `str::as_bytes`). -/
def strBytes (s : String) : List Nat :=
  (s.toList.map (fun c => utf8Bytes c.toNat)).flatten

/-! ## SHA-256 (FIPS 180-4), modelling `openssl` `MessageDigest::sha256` -/

def M32 : Nat := 4294967296

def rotr32 (n x : Nat) : Nat :=
  (x >>> n) + ((x % (2 ^ n)) <<< (32 - n))

def K256 : List Nat := [
  1116352408, 1899447441, 3049323471, 3921009573, 961987163, 1508970993,
  2453635748, 2870763221, 3624381080, 310598401, 607225278, 1426881987,
  1925078388, 2162078206, 2614888103, 3248222580, 3835390401, 4022224774,
  264347078, 604807628, 770255983, 1249150122, 1555081692, 1996064986,
  2554220882, 2821834349, 2952996808, 3210313671, 3336571891, 3584528711,
  113926993, 338241895, 666307205, 773529912, 1294757372, 1396182291,
  1695183700, 1986661051, 2177026350, 2456956037, 2730485921, 2820302411,
  3259730800, 3345764771, 3516065817, 3600352804, 4094571909, 275423344,
  430227734, 506948616, 659060556, 883997877, 958139571, 1322822218,
  1537002063, 1747873779, 1955562222, 2024104815, 2227730452, 2361852424,
  2428436474, 2756734187, 3204031479, 3329325298 ]

def H256 : List Nat := [
  1779033703, 3144134277, 1013904242, 2773480762, 1359893119, 2600822924,
  528734635, 1541459225 ]

/-- Message-schedule extension: 16 block words to 64. -/
def sched256 (block : List Nat) : List Nat :=
  (List.range 48).foldl (fun w _ =>
    let i := w.length
    let x15 := w.getD (i - 15) 0
    let x2 := w.getD (i - 2) 0
    let s0 := rotr32 7 x15 ^^^ rotr32 18 x15 ^^^ (x15 >>> 3)
    let s1 := rotr32 17 x2 ^^^ rotr32 19 x2 ^^^ (x2 >>> 10)
    w ++ [(w.getD (i - 16) 0 + s0 + w.getD (i - 7) 0 + s1) % M32]) block

/-- One SHA-256 round; state is `[a,b,c,d,e,f,g,h]`, `kw = K[i] + W[i]`. -/
def round256 (st : List Nat) (kw : Nat) : List Nat :=
  let a := st.getD 0 0
  let b := st.getD 1 0
  let c := st.getD 2 0
  let d := st.getD 3 0
  let e := st.getD 4 0
  let f := st.getD 5 0
  let g := st.getD 6 0
  let h := st.getD 7 0
  let s1 := rotr32 6 e ^^^ rotr32 11 e ^^^ rotr32 25 e
  let ch := (e &&& f) ^^^ ((e ^^^ 4294967295) &&& g)
  let t1 := (h + s1 + ch + kw) % M32
  let s0 := rotr32 2 a ^^^ rotr32 13 a ^^^ rotr32 22 a
  let mj := (a &&& b) ^^^ (a &&& c) ^^^ (b &&& c)
  let t2 := (s0 + mj) % M32
  [(t1 + t2) % M32, a, b, c, (d + t1) % M32, e, f, g]

def compress256 (h : List Nat) (block : List Nat) : List Nat :=
  let st := (List.zip K256 (sched256 block)).foldl
    (fun st kw => round256 st (kw.1 + kw.2)) h
  (List.zip h st).map (fun p => (p.1 + p.2) % M32)

/-- Group a byte list into big-endian words of `n` bytes each. -/
def beWords (n : Nat) (l : List Nat) : List Nat :=
  (List.range (l.length / n)).map (fun i =>
    ((l.drop (n * i)).take n).foldl (fun acc b => acc * 256 + b) 0)

/-- Split a word list into chunks of `n` words. -/
def chunks (n : Nat) (ws : List Nat) : List (List Nat) :=
  (List.range (ws.length / n)).map (fun i => (ws.drop (n * i)).take n)

/-- SHA-256 of a byte list, as the 32 digest bytes. -/
def sha256 (msg : List Nat) : List Nat :=
  let padded := msg ++ [0x80] ++ List.replicate ((119 - msg.length % 64) % 64) 0
    ++ beBytes 8 (msg.length * 8)
  let h := (chunks 16 (beWords 4 padded)).foldl compress256 H256
  (h.map (beBytes 4)).flatten

/-! ## SHA-512, modelling `MessageDigest::sha512` -/

def M64 : Nat := 18446744073709551616

def rotr64 (n x : Nat) : Nat :=
  (x >>> n) + ((x % (2 ^ n)) <<< (64 - n))

def K512 : List Nat := [
  4794697086780616226, 8158064640168781261, 13096744586834688815,
  16840607885511220156, 4131703408338449720, 6480981068601479193,
  10538285296894168987, 12329834152419229976, 15566598209576043074,
  1334009975649890238, 2608012711638119052, 6128411473006802146,
  8268148722764581231, 9286055187155687089, 11230858885718282805,
  13951009754708518548, 16472876342353939154, 17275323862435702243,
  1135362057144423861, 2597628984639134821, 3308224258029322869,
  5365058923640841347, 6679025012923562964, 8573033837759648693,
  10970295158949994411, 12119686244451234320, 12683024718118986047,
  13788192230050041572, 14330467153632333762, 15395433587784984357,
  489312712824947311, 1452737877330783856, 2861767655752347644,
  3322285676063803686, 5560940570517711597, 5996557281743188959,
  7280758554555802590, 8532644243296465576, 9350256976987008742,
  10552545826968843579, 11727347734174303076, 12113106623233404929,
  14000437183269869457, 14369950271660146224, 15101387698204529176,
  15463397548674623760, 17586052441742319658, 1182934255886127544,
  1847814050463011016, 2177327727835720531, 2830643537854262169,
  3796741975233480872, 4115178125766777443, 5681478168544905931,
  6601373596472566643, 7507060721942968483, 8399075790359081724,
  8693463985226723168, 9568029438360202098, 10144078919501101548,
  10430055236837252648, 11840083180663258601, 13761210420658862357,
  14299343276471374635, 14566680578165727644, 15097957966210449927,
  16922976911328602910, 17689382322260857208, 500013540394364858,
  748580250866718886, 1242879168328830382, 1977374033974150939,
  2944078676154940804, 3659926193048069267, 4368137639120453308,
  4836135668995329356, 5532061633213252278, 6448918945643986474,
  6902733635092675308, 7801388544844847127 ]

def H512 : List Nat := [
  7640891576956012808, 13503953896175478587, 4354685564936845355,
  11912009170470909681, 5840696475078001361, 11170449401992604703,
  2270897969802886507, 6620516959819538809 ]

def sched512 (block : List Nat) : List Nat :=
  (List.range 64).foldl (fun w _ =>
    let i := w.length
    let x15 := w.getD (i - 15) 0
    let x2 := w.getD (i - 2) 0
    let s0 := rotr64 1 x15 ^^^ rotr64 8 x15 ^^^ (x15 >>> 7)
    let s1 := rotr64 19 x2 ^^^ rotr64 61 x2 ^^^ (x2 >>> 6)
    w ++ [(w.getD (i - 16) 0 + s0 + w.getD (i - 7) 0 + s1) % M64]) block

def round512 (st : List Nat) (kw : Nat) : List Nat :=
  let a := st.getD 0 0
  let b := st.getD 1 0
  let c := st.getD 2 0
  let d := st.getD 3 0
  let e := st.getD 4 0
  let f := st.getD 5 0
  let g := st.getD 6 0
  let h := st.getD 7 0
  let s1 := rotr64 14 e ^^^ rotr64 18 e ^^^ rotr64 41 e
  let ch := (e &&& f) ^^^ ((e ^^^ 18446744073709551615) &&& g)
  let t1 := (h + s1 + ch + kw) % M64
  let s0 := rotr64 28 a ^^^ rotr64 34 a ^^^ rotr64 39 a
  let mj := (a &&& b) ^^^ (a &&& c) ^^^ (b &&& c)
  let t2 := (s0 + mj) % M64
  [(t1 + t2) % M64, a, b, c, (d + t1) % M64, e, f, g]

def compress512 (h : List Nat) (block : List Nat) : List Nat :=
  let st := (List.zip K512 (sched512 block)).foldl
    (fun st kw => round512 st (kw.1 + kw.2)) h
  (List.zip h st).map (fun p => (p.1 + p.2) % M64)

/-- SHA-512 of a byte list, as the 64 digest bytes. -/
def sha512 (msg : List Nat) : List Nat :=
  let padded := msg ++ [0x80] ++ List.replicate ((239 - msg.length % 128) % 128) 0
    ++ beBytes 16 (msg.length * 8)
  let h := (chunks 16 (beWords 8 padded)).foldl compress512 H512
  (h.map (beBytes 8)).flatten

/-! ## Authenticator (`src/wee/auth.rs`) -/

/-- Source `auth::Algo` (the pbkdf2 variants are commented out in the source). -/
inductive Algo where
  | plain
  | sha (nonce : String) (size : String)
deriving Repr, DecidableEq

/-- Source `auth::_create_auth`.  The `rand` function argument, which in the source
fills the 7-byte client nonce, is modelled by passing the drawn nonce bytes
`c_nonce` directly.  `hex::decode(nonce).unwrap()` panics on a malformed
server nonce; the panic is modelled as `none`. -/
def _create_auth (algo : Algo) (password : String) (c_nonce : List Nat) :
    Option String :=
  match algo with
  | .plain => some ("password=" ++ password)
  | .sha nonce size => do
      let server ← hex_decode nonce
      let msg := server ++ c_nonce ++ strBytes password
      let hash := if size = "256" then sha256 msg else sha512 msg
      some ("password_hash=sha" ++ size ++ ":" ++ nonce ++ hex_encode c_nonce
        ++ ":" ++ hex_encode hash)

/-! ## Color stripping (`strip_colors`, `src/wee/mod.rs:401`) -/

/-- The number of characters the `'\x19'` branch of `strip_colors` consumes
after the escape character, following the source's peek/next sequence:
an optional `F`/`B`, an optional one of `* ! / _ |`, then `@XXXXX` (6 chars)
or 2 chars, then optionally `,`/`~` followed by the same 6- or 2-char form.
`none` models the `it.peek().unwrap()` panics on a truncated sequence
(`next()` on an exhausted iterator, by contrast, silently returns `None`,
which is why the drops may run past the end). -/
def consumeColorCount (l : List Char) : Option Nat :=
  match l with
  | [] => none
  | c0 :: l0 =>
    let p1 : Nat × List Char := if c0 = 'F' ∨ c0 = 'B' then (1, l0) else (0, l)
    match p1.2 with
    | [] => none
    | c1 :: l1t =>
      let p2 : Nat × List Char :=
        if c1 = '*' ∨ c1 = '!' ∨ c1 = '/' ∨ c1 = '_' ∨ c1 = '|' then
          (p1.1 + 1, l1t)
        else (p1.1, p1.2)
      match p2.2 with
      | [] => none
      | c2 :: _ =>
        let n3 := p2.1 + (if c2 = '@' then 6 else 2)
        let l3 := p2.2.drop (if c2 = '@' then 6 else 2)
        match l3 with
        | [] => some n3
        | c3 :: l3t =>
          if c3 = '~' ∨ c3 = ',' then
            match l3t with
            | [] => none
            | c4 :: _ => some (n3 + 1 + (if c4 = '@' then 6 else 2))
          else some n3

/-- The loop of `strip_colors`, made structurally recursive on a fuel
argument so that it reduces inside the kernel: `'\x1c'` is skipped,
`'\x19'` consumes a formatting sequence, everything else passes through.
`none` models the `unwrap` panics inside the escape handling.  Every
iteration consumes at least the head character, so fuel equal to the input
length (as supplied by `stripColors`) never runs out — the `0, _ :: _`
branch is unreachable from `stripColors`. -/
def stripColorsAux : Nat → List Char → Option (List Char)
  | _, [] => some []
  | 0, _ :: _ => none
  | fuel + 1, c :: rest =>
    if c = '\x1c' then stripColorsAux fuel rest
    else if c = '\x19' then
      match consumeColorCount rest with
      | none => none
      | some n => stripColorsAux fuel (rest.drop n)
    else (stripColorsAux fuel rest).map (fun out => c :: out)

def stripColors (l : List Char) : Option (List Char) :=
  stripColorsAux l.length l

/-- Source `strip_colors` (the `String` interface of the function). -/
def strip_colors (s : String) : Option String :=
  (stripColors s.toList).map List.asString

/-! ## Session records (`src/wee/messages.rs`) -/

/-- Source `messages::Buffer`.  The source field `prefix`-free; `hotlist` is
`#[serde(skip, default = "default_hotlist")]`, so it never comes from the
wire. -/
structure Buffer where
  ptr_buffer : String
  number : Int
  short_name : Option String
  full_name : String
  title : Option String
  hotlist : Int × Int × Int × Int
deriving Repr, DecidableEq

/-- The wire-decoded fields of a `Buffer` row (everything except `hotlist`,
which serde skips). -/
structure WireBuffer where
  ptr_buffer : String
  number : Int
  short_name : Option String
  full_name : String
  title : Option String
deriving Repr, DecidableEq

/-- Deserializing a `Buffer` row: the skipped `hotlist` field takes
`default_hotlist() = (0, 0, 0, 0)`. -/
def decodeBuffer (b : WireBuffer) : Buffer :=
  { ptr_buffer := b.ptr_buffer, number := b.number, short_name := b.short_name,
    full_name := b.full_name, title := b.title, hotlist := (0, 0, 0, 0) }

/-- Source `messages::Hotlist`. -/
structure Hotlist where
  priority : Int
  buffer : String
  count : Int × Int × Int × Int
deriving Repr, DecidableEq

/-- Source `messages::LineData`.  The field `prefix` is renamed `pfx`
(`prefix` is a Lean keyword). -/
structure LineData where
  ptr_line : Option String
  buffer : String
  date : String
  displayed : Nat
  highlight : Nat
  pfx : Option String
  message : String
  notify_level : Int
deriving Repr, DecidableEq

/-- Source `messages::CompletionData`. -/
structure CompletionData where
  context : String
  base_word : String
  pos_start : Int
  pos_end : Int
  add_space : Nat
  list : List String
deriving Repr, DecidableEq

/-! ## Errors of frame handling (`src/wee/mod.rs`, `src/wee/de.rs`) -/

/-- Source `de::Error`. -/
inductive DeError where
  | Message (msg : String)
  | Eof
  | Syntax
  | ExpectedType
  | ExpectedChar
  | ExpectedInteger
  | ExpectedNull
  | ExpectedLong
  | ExpectedArray
  | ExpectedString
  | ExpectedBuf
  | ExpectedPointer
  | ExpectedHdata
  | ExpectedHashtable
  | ExpectedTime
  | ExpectedInfo
  | ExpectedInfolist
  | BadUTF8
  | TrailingCharacters
deriving Repr, DecidableEq

/-- Ways the session operations can fail.  `assertFail`/`unwrapNone`/
`borrowMutPanic` model Rust panics (`assert_eq!`, `Option::unwrap` on
`None`, and a `RefCell` borrow violation respectively); `packetError`
wraps `de::Error` (the `Error::PacketError` variant); `protocolError` is
the source's `Error::ProtocolError(&str)` variant, which `handle_one`
itself never constructs. -/
inductive HandleError where
  | assertFail (msg : String)
  | unwrapNone
  | borrowMutPanic (msg : String)
  | packetError (e : DeError)
  | protocolError (msg : String)
deriving Repr, DecidableEq

/-! ## Session engine (`Wee`, `src/wee/mod.rs`) -/

/-- Source `BUFFER_CACHE_SIZE` (`src/wee/mod.rs:12`). -/
def BUFFER_CACHE_SIZE : Nat := 100

/-- The session model: the fields of `struct Wee` minus the transport.
The unbounded mpsc `send_queue` is modelled as the ordered list of queued
outbound strings. -/
structure Wee where
  current_buffer : String
  bufs : List Buffer
  buf_lines : List LineData
  send_queue : List String
  completion : Option CompletionData
  is_scrolling : Bool
deriving Repr, DecidableEq

/-- The empty model `connect` starts from. -/
def Wee.init : Wee :=
  { current_buffer := "", bufs := [], buf_lines := [], send_queue := [],
    completion := none, is_scrolling := false }

/-- Source `Wee::send`: queue `"(<id>) <command>\n"`. -/
def Wee.send (w : Wee) (id command : String) : Wee :=
  { w with send_queue := w.send_queue ++ ["(" ++ id ++ ") " ++ command ++ "\n"] }

/-- Source `Wee::buffers`. -/
def Wee.buffers (w : Wee) : Wee :=
  w.send "gui_buffers" "hdata buffer:gui_buffers(*)"

/-- Source `Wee::hotlist`. -/
def Wee.hotlist (w : Wee) : Wee :=
  w.send "gui_hotlist" "hdata hotlist:gui_hotlist(*)"

/-- Source `Wee::get_buffers`. -/
def Wee.get_buffers (w : Wee) : List Buffer := w.bufs

/-- Source `Wee::get_lines`. -/
def Wee.get_lines (w : Wee) : List LineData := w.buf_lines

/-- The `find` in `Wee::get_current_buffer`. -/
def findBuffer (name : String) : List Buffer → Option Buffer
  | [] => none
  | b :: bs => if b.full_name = name then some b else findBuffer name bs

/-- Source `Wee::get_current_buffer`. -/
def Wee.get_current_buffer (w : Wee) : Option Buffer :=
  findBuffer w.current_buffer w.bufs

/-- Source `Wee::switch_current_buffer`: set `current_buffer` and, if the buffer is
known, queue the backlog request. -/
def Wee.switch_current_buffer (w : Wee) (full_name : String) : Wee :=
  let w := { w with current_buffer := full_name }
  match w.get_current_buffer with
  | some current =>
      w.send "backlog_lines"
        ("hdata buffer:0x" ++ current.ptr_buffer ++ "/own_lines/last_line(-"
          ++ toString BUFFER_CACHE_SIZE ++ ")/data")
  | none => w

/-- Source `Wee::scroll_back`.  `checked_sub(1 + scroll).unwrap_or_default()` is
exactly truncated `Nat` subtraction.  The `ptr_line = None` branch calls
`switch_current_buffer(&self.current_buffer.borrow())` (`mod.rs:129`): the
`Ref` guard of that `borrow()` is still held when `switch_current_buffer`
runs `self.current_buffer.replace(..)` (`mod.rs:99`), whose internal
`borrow_mut` panics with a `RefCell` `BorrowMutError` — the program aborts
on that path before mutating anything, modelled as
`HandleError.borrowMutPanic`. -/
def Wee.scroll_back (w : Wee) (scroll : Nat) : Except HandleError Wee :=
  match w.buf_lines.get? (w.buf_lines.length - (1 + scroll)) with
  | none => .ok w
  | some last_line =>
    match last_line.ptr_line with
    | some ptr_line =>
        .ok (w.send "scrollback_lines"
          ("hdata line:0x" ++ ptr_line ++ "(-" ++ toString BUFFER_CACHE_SIZE
            ++ ")/data"))
    | none => .error (.borrowMutPanic "already borrowed: BorrowMutError")

/-- Source `Wee::close`: queue the empty sentinel. -/
def Wee.close (w : Wee) : Wee :=
  { w with send_queue := w.send_queue ++ [""] }

/-- Source `Wee::consume_completion`. -/
def Wee.consume_completion (w : Wee) : Option CompletionData × Wee :=
  (w.completion, { w with completion := none })

/-! ## Frame dispatch (`Wee::handle_one`) -/

/-- A decoded inbound frame, one constructor per arm of the `match msg_id`
in `Wee::handle_one`.  `other` is the trailing catch-all arm and carries
the peeked id (`None` = null id string). -/
inductive Msg where
  | gui_buffers (rows : List WireBuffer)
  | gui_hotlist (rows : List Hotlist)
  | backlog_lines (rows : List LineData)
  | scrollback_lines (rows : List LineData)
  | buffer_event
  | buffer_line_added (line : LineData)
  | completion (rows : List CompletionData)
  | other (msgId : Option String)
deriving Repr, DecidableEq

/-- The ids `Wee::handle_one` dispatches on (every non-catch-all arm;
`buffer_event` stands for the four `_buffer_*` refresh ids). -/
def dispatch_ids : List String :=
  ["gui_buffers", "gui_hotlist", "backlog_lines", "scrollback_lines",
   "_buffer_opened", "_buffer_closing", "_buffer_renamed",
   "_buffer_title_changed", "_buffer_line_added", "completion"]

/-- Color-strip the `pfx` and `message` fields of a line, as done in the
`backlog_lines`/`scrollback_lines` and `_buffer_line_added` arms. -/
def stripLine (l : LineData) : Except HandleError LineData :=
  match (match l.pfx with
         | none => some none
         | some p => (strip_colors p).map some) with
  | none => .error .unwrapNone
  | some pfx' =>
    match strip_colors l.message with
    | none => .error .unwrapNone
    | some m => .ok { l with pfx := pfx', message := m }

/-- Function `stripLine` mapped over a reply's rows (erroring at the first panic),
used to phrase the expected contents of the line cache. -/
def stripRows : List LineData → Except HandleError (List LineData)
  | [] => .ok []
  | l :: ls =>
    match stripLine l with
    | .error e => .error e
    | .ok l' =>
      match stripRows ls with
      | .error e => .error e
      | .ok ls' => .ok (l' :: ls')

/-- The loop of the `backlog_lines`/`scrollback_lines` arm: strip each row
and `insert(0, l)` it at the front of the line cache. -/
def foldLines (w : Wee) : List LineData → Except HandleError Wee
  | [] => .ok w
  | l :: ls =>
    match stripLine l with
    | .error e => .error e
    | .ok l' => foldLines { w with buf_lines := l' :: w.buf_lines } ls

/-- The shared `backlog_lines`/`scrollback_lines` arm: set `is_scrolling`,
clear the cache, queue the mark-read command and a hotlist refresh when the
reply is non-empty and not scrolling, then insert the rows front-first. -/
def Wee.handle_lines (w : Wee) (scrolling : Bool) (rows : List LineData) :
    Except HandleError Wee :=
  let w1 := { w with is_scrolling := scrolling, buf_lines := [] }
  let w2 := match rows with
    | [] => w1
    | first :: _ =>
      if scrolling = false then
        ({ w1 with send_queue := w1.send_queue ++
            ["input 0x" ++ first.buffer ++ " /buffer set hotlist -1\n"] }).hotlist
      else w1
  foldLines w2 rows

/-- The `find` + assignment in the `gui_hotlist` arm: copy the counters of
`hot` onto the first buffer whose `ptr_buffer` matches. -/
def setHot (hot : Hotlist) : List Buffer → List Buffer
  | [] => []
  | b :: bs =>
    if b.ptr_buffer = hot.buffer then { b with hotlist := hot.count } :: bs
    else b :: setHot hot bs

/-- Zero a buffer's hotlist (the clearing loop of the `gui_hotlist` arm). -/
def zeroHot (b : Buffer) : Buffer := { b with hotlist := (0, 0, 0, 0) }

/-- The `_buffer_line_added` loop over `self.bufs`: skip buffers whose
`ptr_buffer` differs from the line's `buffer`; at the first match either
leave the list alone and report `true` (append to the current lines) or
bump the hotlist slot selected by `notify_level`; then break. -/
def lineAddedBufs (current : String) (scrolling : Bool) (line : LineData) :
    List Buffer → List Buffer × Bool
  | [] => ([], false)
  | b :: bs =>
    if b.ptr_buffer ≠ line.buffer then
      let r := lineAddedBufs current scrolling line bs
      (b :: r.1, r.2)
    else if b.full_name = current ∧ scrolling = false then
      (b :: bs, decide (b.ptr_buffer = line.buffer))
    else
      ({ b with hotlist :=
          (if line.notify_level = 0 then b.hotlist.1 + 1 else b.hotlist.1,
           if line.notify_level = 1 then b.hotlist.2.1 + 1 else b.hotlist.2.1,
           if line.notify_level = 2 then b.hotlist.2.2.1 + 1 else b.hotlist.2.2.1,
           if line.notify_level = 3 then b.hotlist.2.2.2 + 1 else b.hotlist.2.2.2) }
        :: bs, false)

/-- The `match msg_id` dispatch of `Wee::handle_one`, after the payload has
been decoded. -/
def Wee.dispatch (w : Wee) (msg : Msg) : Except HandleError Wee :=
  match msg with
  | .gui_buffers rows => .ok { w with bufs := rows.map decodeBuffer }
  | .gui_hotlist rows =>
      let bufs0 := w.bufs.map zeroHot
      let bufs1 := rows.foldl (fun bs hot => setHot hot bs) bufs0
      let w1 := { w with bufs := bufs1 }
      if w1.current_buffer = "" then
        .ok (w1.switch_current_buffer "core.weechat")
      else .ok w1
  | .backlog_lines rows => w.handle_lines false rows
  | .scrollback_lines rows => w.handle_lines true rows
  | .buffer_event => .ok ((w.buffers).hotlist)
  | .buffer_line_added line =>
      let r := lineAddedBufs w.current_buffer w.is_scrolling line w.bufs
      if r.2 then
        match stripLine line with
        | .error e => .error e
        | .ok l' => .ok { w with bufs := r.1, buf_lines := w.buf_lines ++ [l'] }
      else .ok { w with bufs := r.1 }
  | .completion rows =>
      match rows with
      | [] => .ok w
      | first :: _ => .ok { w with completion := some first }
  | .other _ => .ok w

/-- Source `Wee::handle_one` for one inbound frame: the 1-byte compression flag is
asserted to be zero (`assert_eq!` with message "compression not implemented")
before the payload is decoded at all; a decode failure becomes
`Error::PacketError`; otherwise the decoded frame is dispatched.  A frame
whose handling fails is fatal to the session, so the source's state
mutations that precede an error are not observable and are not modelled. -/
def Wee.handle_one (w : Wee) (comp : Nat) (decoded : Except DeError Msg) :
    Except HandleError Wee :=
  if comp = 0 then
    match decoded with
    | .error e => .error (.packetError e)
    | .ok msg => w.dispatch msg
  else .error (.assertFail "compression not implemented")

/-- Run a list of decoded frames (all with compression byte 0) through
`handle_one`. -/
def runMsgs (w : Wee) (msgs : List Msg) : Except HandleError Wee :=
  msgs.foldlM (fun w m => w.handle_one 0 (.ok m)) w

/-! ## Whole-message decode (`src/wee/de.rs`)

`de.rs` is a serde deserializer; its claim-relevant content is the
`from_bytes` entry point (decode, then fail with `TrailingCharacters` when
input remains) and the primitive readers.  `from_bytes` is embedded
generically over the shape's deserialization step — a function consuming a
prefix of the input and returning the value plus the unconsumed tail,
exactly the role of `T::deserialize(&mut deserializer)` advancing
`deserializer.input`.  A concrete step for the `Info` shape is built from
the primitive readers below. -/

/-- Strict UTF-8 decoding (Rust `std::str::from_utf8`): rejects
continuation-byte leads, overlong forms, surrogates and code points above
`0x10FFFF`. -/
def utf8Decode : List Nat → Option (List Char)
  | [] => some []
  | b :: rest =>
    if b < 0x80 then (utf8Decode rest).map (fun cs => Char.ofNat b :: cs)
    else if b < 0xC2 then none
    else if b < 0xE0 then
      match rest with
      | b1 :: rest' =>
        if 0x80 ≤ b1 ∧ b1 < 0xC0 then
          (utf8Decode rest').map
            (fun cs => Char.ofNat ((b - 0xC0) * 64 + (b1 - 0x80)) :: cs)
        else none
      | [] => none
    else if b < 0xF0 then
      match rest with
      | b1 :: b2 :: rest' =>
        if (0x80 ≤ b1 ∧ b1 < 0xC0) ∧ (0x80 ≤ b2 ∧ b2 < 0xC0) then
          let cp := (b - 0xE0) * 4096 + (b1 - 0x80) * 64 + (b2 - 0x80)
          if cp < 0x800 ∨ (0xD800 ≤ cp ∧ cp < 0xE000) then none
          else (utf8Decode rest').map (fun cs => Char.ofNat cp :: cs)
        else none
      | _ => none
    else if b < 0xF5 then
      match rest with
      | b1 :: b2 :: b3 :: rest' =>
        if (0x80 ≤ b1 ∧ b1 < 0xC0) ∧ (0x80 ≤ b2 ∧ b2 < 0xC0)
            ∧ (0x80 ≤ b3 ∧ b3 < 0xC0) then
          let cp := (b - 0xF0) * 262144 + (b1 - 0x80) * 4096
            + (b2 - 0x80) * 64 + (b3 - 0x80)
          if cp < 0x10000 ∨ 0x110000 ≤ cp then none
          else (utf8Decode rest').map (fun cs => Char.ofNat cp :: cs)
        else none
      | _ => none
    else none

def bytesToStr (b : List Nat) : Option String :=
  (utf8Decode b).map List.asString

/-- Read a 4-byte big-endian `u32`.  An input shorter than four bytes makes
the source's `split_at(4)` panic; the abort is modelled as `Eof`. -/
def readU32 : List Nat → Except DeError (Nat × List Nat)
  | b0 :: b1 :: b2 :: b3 :: rest =>
      .ok (((b0 * 256 + b1) * 256 + b2) * 256 + b3, rest)
  | _ => .error .Eof

/-- Source `DeMessage::read_buf`: 4-byte length (`0xFFFFFFFF` = null) then that
many bytes.  A length exceeding the remaining input makes the source's
`split_at` panic; the abort is modelled as `Eof`. -/
def read_buf (b : List Nat) : Except DeError (Option (List Nat) × List Nat) :=
  match readU32 b with
  | .error e => .error e
  | .ok (len, rest) =>
    if len = 0xFFFFFFFF then .ok (none, rest)
    else if rest.length < len then .error .Eof
    else .ok (some (rest.take len), rest.drop len)

/-- Source `DeMessage::read_str`: a buf whose bytes must be UTF-8 (`BadUTF8`
otherwise). -/
def read_str (b : List Nat) : Except DeError (Option String × List Nat) :=
  match read_buf b with
  | .error e => .error e
  | .ok (none, rest) => .ok (none, rest)
  | .ok (some bytes, rest) =>
    match bytesToStr bytes with
    | some s => .ok (some s, rest)
    | none => .error .BadUTF8

/-- Source `DeMessage::read_typ`: three bytes of UTF-8 (`ExpectedType` otherwise). -/
def read_typ (b : List Nat) : Except DeError (String × List Nat) :=
  if b.length < 3 then .error .Eof
  else
    match bytesToStr (b.take 3) with
    | some s => .ok (s, b.drop 3)
    | none => .error .ExpectedType

/-- Source `de::peek_str`: read the leading string without consuming input. -/
def peek_str (b : List Nat) : Except DeError (Option String) :=
  match read_str b with
  | .error e => .error e
  | .ok (s, _) => .ok s

/-- Source `de::from_bytes` (`src/wee/de.rs:111`): run the shape's deserializer,
then demand that it consumed the whole input, failing with
`TrailingCharacters` otherwise. -/
def from_bytes {α : Type} (deser : List Nat → Except DeError (α × List Nat))
    (b : List Nat) : Except DeError α :=
  match deser b with
  | .error e => .error e
  | .ok (t, rest) => if rest.length = 0 then .ok t else .error .TrailingCharacters

/-- Source `messages::Info`: an id and an `inf` key/value pair (value nullable). -/
structure InfoMsg where
  id : String
  inf : String × Option String
deriving Repr, DecidableEq

/-- The deserialization step of the `Info` shape: the message id string,
the 3-byte type tag (which must be `inf`), then the key and the nullable
value strings. -/
def deserInfo (b : List Nat) : Except DeError (InfoMsg × List Nat) :=
  match read_str b with
  | .error e => .error e
  | .ok (none, _) => .error .ExpectedString
  | .ok (some id, b) =>
    match read_typ b with
    | .error e => .error e
    | .ok (typ, b) =>
      if typ = "inf" then
        match read_str b with
        | .error e => .error e
        | .ok (none, _) => .error .ExpectedString
        | .ok (some key, b) =>
          match read_str b with
          | .error e => .error e
          | .ok (val, b) => .ok ({ id := id, inf := (key, val) }, b)
      else .error .ExpectedInfo

/-- ASCII bytes of a string, for spelling out wire test vectors. -/
def ascii (s : String) : List Nat := s.toList.map Char.toNat

/-- The `version_check` reply of the repository's own decoder test
(`test_deserialize_version`). -/
def versionCheckBytes : List Nat :=
  [0, 0, 0, 13] ++ ascii "version_check" ++ ascii "inf"
    ++ [0, 0, 0, 7] ++ ascii "version" ++ [0, 0, 0, 3] ++ ascii "2.9"

/-! ## Concrete test fixtures -/

def tBuf : WireBuffer :=
  { ptr_buffer := "abc123", number := 1, short_name := some "weechat",
    full_name := "core.weechat", title := none }

def tBuf2 : WireBuffer :=
  { ptr_buffer := "def456", number := 2, short_name := none,
    full_name := "irc.net.chat", title := some "chatter" }

def tHot : Hotlist := { priority := 0, buffer := "def456", count := (1, 2, 3, 4) }

def tLine : LineData :=
  { ptr_line := some "aa01", buffer := "abc123", date := "1700000000",
    displayed := 1, highlight := 0, pfx := some "nick", message := "hello",
    notify_level := 1 }

def tLine2 : LineData :=
  { ptr_line := some "aa02", buffer := "abc123", date := "1700000001",
    displayed := 1, highlight := 0, pfx := none, message := "world",
    notify_level := 2 }

/-- A session that has switched to `core.weechat` and cached one line. -/
def w5 : Wee :=
  { current_buffer := "core.weechat", bufs := [decodeBuffer tBuf],
    buf_lines := [tLine], send_queue := [], completion := none,
    is_scrolling := false }

/-- The state after `gui_buffers [tBuf, tBuf2]` from the empty session. -/
def w3a : Wee := { Wee.init with bufs := [decodeBuffer tBuf, decodeBuffer tBuf2] }

/-- The state after a further `gui_hotlist [tHot]`: `tBuf2` carries the
row's counters, the empty current buffer auto-switched to `core.weechat`,
queueing its backlog request. -/
def w3b : Wee :=
  { current_buffer := "core.weechat",
    bufs := [decodeBuffer tBuf, { (decodeBuffer tBuf2) with hotlist := (1, 2, 3, 4) }],
    buf_lines := [],
    send_queue := ["(backlog_lines) hdata buffer:0xabc123/own_lines/last_line(-100)/data\n"],
    completion := none, is_scrolling := false }

def w6start : Wee := Wee.init.switch_current_buffer "core.weechat"

/-- Reach a full line cache: a buffer list and a 100-row backlog reply. -/
def msgs6a : List Msg :=
  [Msg.gui_buffers [tBuf], Msg.backlog_lines (List.replicate 100 tLine)]

/-- And then one more live line for the current buffer. -/
def msgs6b : List Msg := msgs6a ++ [Msg.buffer_line_added tLine]

end Weesels

namespace Weesels

/-! ## Claim theorems -/

set_option maxRecDepth 40000 in
/-- C2: with the negotiated algorithm `sha256`, server nonce
`85b1ee00695a5b254e14f4885538df0d`, client nonce bytes `a4b73207f5aae4` and
password `test`, `_create_auth` produces exactly the documented
`password_hash=sha256:<server||client nonce hex>:<digest hex>` string, the
digest being `H(server_nonce_bytes || client_nonce || password)` with all
hex lowercase. -/
theorem create_auth_sha256_vector :
    _create_auth (Algo.sha "85b1ee00695a5b254e14f4885538df0d" "256") "test"
      [0xa4, 0xb7, 0x32, 0x07, 0xf5, 0xaa, 0xe4]
    = some ("password_hash=sha256:85b1ee00695a5b254e14f4885538df0da4b73207f5aae4:"
        ++ "2c6ed12eb0109fca3aedc03bf03d9b6e804cd60a23e1731fd17794da423e21db") := by
  decide

set_option maxRecDepth 80000 in
/-- The corresponding `sha512` reference vector from the repository's own
test suite, validating the 512-bit branch of the embedded hasher. -/
theorem create_auth_sha512_vector :
    _create_auth (Algo.sha "85b1ee00695a5b254e14f4885538df0d" "512") "test"
      [0xa4, 0xb7, 0x32, 0x07, 0xf5, 0xaa, 0xe4]
    = some ("password_hash=sha512:85b1ee00695a5b254e14f4885538df0da4b73207f5aae4:"
        ++ "0a1f0172a542916bd86e0cbceebc1c38ed791f6be246120452825f0d74ef1078c79e"
        ++ "9812de8b0ab3dfaf598b6ca14522374ec6a8653a46df3f96a6b54ac1f0f8") := by
  decide

/-- The `plain` algorithm vector from the repository's test suite. -/
theorem create_auth_plain_vector :
    _create_auth Algo.plain "foobar" [] = some "password=foobar" := by decide

/-- C7 counterexample: with a non-zero compression byte, `handle_one`
aborts through the `assert_eq!` panic carrying the message "compression
not implemented" — it does not return the `Error::ProtocolError` value the
claim names. -/
theorem compression_not_protocol_error_cex :
    Wee.init.handle_one 1 (Except.ok (Msg.other none)) =
      Except.error (HandleError.assertFail "compression not implemented") ∧
    Wee.init.handle_one 1 (Except.ok (Msg.other none)) ≠
      Except.error (HandleError.protocolError "compression not implemented") := by
  decide

/-- C7 (amended): for every inbound frame whose compression byte is
non-zero, frame handling aborts fatally with the assertion message
"compression not implemented" — whatever the payload would have decoded
to, including a decode error, so the payload is never decoded. -/
theorem nonzero_compression_fatal (w : Wee) (comp : Nat)
    (decoded : Except DeError Msg) (h : comp ≠ 0) :
    w.handle_one comp decoded =
      Except.error (HandleError.assertFail "compression not implemented") := by
  unfold Wee.handle_one
  rw [if_neg h]

theorem nonzero_compression_fatal_witness :
    Wee.init.handle_one 1 (Except.error DeError.Eof) =
      Except.error (HandleError.assertFail "compression not implemented") :=
  nonzero_compression_fatal Wee.init 1 (Except.error DeError.Eof) (by decide)

/-- C8: if the shape's deserializer completes on a prefix of the input,
leaving unconsumed bytes, `from_bytes` fails with `TrailingCharacters`
instead of succeeding. -/
theorem from_bytes_trailing {α : Type}
    (deser : List Nat → Except DeError (α × List Nat)) (b : List Nat)
    (t : α) (rest : List Nat)
    (hok : deser b = Except.ok (t, rest)) (hne : rest ≠ []) :
    from_bytes deser b = Except.error DeError.TrailingCharacters := by
  simp only [from_bytes, hok]
  rw [if_neg (by simpa [List.length_eq_zero] using hne)]

theorem from_bytes_trailing_witness :
    from_bytes deserInfo (versionCheckBytes ++ [9]) =
      Except.error DeError.TrailingCharacters :=
  from_bytes_trailing deserInfo (versionCheckBytes ++ [9])
    { id := "version_check", inf := ("version", some "2.9") } [9]
    (by decide) (by decide)

/-- The same `version_check` vector decodes successfully when nothing
trails, as in the repository's `test_deserialize_version`. -/
theorem from_bytes_version_check :
    from_bytes deserInfo versionCheckBytes =
      Except.ok { id := "version_check", inf := ("version", some "2.9") } := by
  decide

/-- C9: a well-formed frame whose id is none of the dispatch ids is handled
without error and the session model — buffers, line cache, current buffer,
scrolling flag, completion and send queue alike — is returned unchanged. -/
theorem unknown_id_noop (w : Wee) (msgId : Option String)
    (_h : ∀ s, msgId = some s → s ∉ dispatch_ids) :
    w.handle_one 0 (Except.ok (Msg.other msgId)) = Except.ok w := rfl

theorem unknown_id_noop_witness :
    Wee.init.handle_one 0 (Except.ok (Msg.other (some "nicklist"))) =
      Except.ok Wee.init :=
  unknown_id_noop Wee.init (some "nicklist") (by decide)

/-- Color stripping on the character list is the identity when neither
escape byte occurs. -/
theorem stripColors_plain (l : List Char)
    (h : ∀ c ∈ l, c ≠ '\x19' ∧ c ≠ '\x1c') :
    stripColors l = some l := by
  induction l with
  | nil => rfl
  | cons c rest ih =>
      obtain ⟨h19, h1c⟩ := h c (List.mem_cons_self c rest)
      show stripColorsAux (rest.length + 1) (c :: rest) = some (c :: rest)
      simp only [stripColorsAux, if_neg h1c, if_neg h19]
      rw [show stripColorsAux rest.length rest = stripColors rest from rfl,
        ih (fun x hx => h x (List.mem_cons_of_mem c hx))]
      rfl

/-- C10: `strip_colors` acts as the identity on every string containing
neither the byte `\x19` nor the byte `\x1c`. -/
theorem strip_colors_plain (s : String)
    (h : ∀ c ∈ s.toList, c ≠ '\x19' ∧ c ≠ '\x1c') :
    strip_colors s = some s := by
  unfold strip_colors
  rw [stripColors_plain s.toList h]
  show some s.toList.asString = some s
  cases s
  rfl

theorem strip_colors_plain_witness :
    strip_colors "foobar" = some "foobar" :=
  strip_colors_plain "foobar" (by decide)

/-- Auxiliary: a successful `stripRows` preserves the row count. -/
theorem stripRows_length (rows : List LineData) :
    ∀ rows', stripRows rows = Except.ok rows' → rows'.length = rows.length := by
  induction rows with
  | nil =>
      intro rows' h
      simp only [stripRows, Except.ok.injEq] at h
      subst h
      rfl
  | cons l ls ih =>
      intro rows' h
      simp only [stripRows] at h
      cases hl : stripLine l with
      | error e => simp [hl] at h
      | ok l' =>
        simp only [hl] at h
        cases hls : stripRows ls with
        | error e => simp [hls] at h
        | ok ls' =>
          simp only [hls, Except.ok.injEq] at h
          subst h
          simp [ih ls' hls]

/-- Auxiliary: the strip-and-insert loop of the backlog/scrollback arm
prepends the stripped rows in reverse order. -/
theorem foldLines_eq (rows : List LineData) :
    ∀ (rows' : List LineData) (w : Wee),
      stripRows rows = Except.ok rows' →
      foldLines w rows =
        Except.ok { w with buf_lines := rows'.reverse ++ w.buf_lines } := by
  induction rows with
  | nil =>
      intro rows' w h
      simp only [stripRows, Except.ok.injEq] at h
      subst h
      simp [foldLines]
  | cons l ls ih =>
      intro rows' w h
      simp only [stripRows] at h
      cases hl : stripLine l with
      | error e => simp [hl] at h
      | ok l' =>
        simp only [hl] at h
        cases hls : stripRows ls with
        | error e => simp [hls] at h
        | ok ls' =>
          simp only [hls, Except.ok.injEq] at h
          subst h
          simp only [foldLines, hl]
          rw [ih ls' { w with buf_lines := l' :: w.buf_lines } hls]
          simp [List.append_assoc]

/-- Auxiliary: full characterization of the shared backlog/scrollback arm:
`is_scrolling` is set, the cache is replaced by the reversed stripped rows,
and — only for a non-empty non-scrolling reply — the mark-read command and
a hotlist refresh are queued. -/
theorem handle_lines_eq (w : Wee) (scrolling : Bool) (rows rows' : List LineData)
    (h : stripRows rows = Except.ok rows') :
    w.handle_lines scrolling rows = Except.ok { w with
      is_scrolling := scrolling,
      buf_lines := rows'.reverse,
      send_queue := w.send_queue ++ (match rows, scrolling with
        | [], _ => []
        | _ :: _, true => []
        | first :: _, false =>
            ["input 0x" ++ first.buffer ++ " /buffer set hotlist -1\n",
             "(gui_hotlist) hdata hotlist:gui_hotlist(*)\n"]) } := by
  cases rows with
  | nil =>
      simp only [stripRows, Except.ok.injEq] at h
      subst h
      simp [Wee.handle_lines, foldLines]
  | cons first restRows =>
      cases scrolling with
      | false =>
          simp only [Wee.handle_lines, Wee.hotlist, Wee.send]
          rw [foldLines_eq _ rows' _ h]
          simp [List.append_assoc]
      | true =>
          simp only [Wee.handle_lines]
          rw [foldLines_eq _ rows' _ h]
          simp

/-- C1: handling a `backlog_lines` reply leaves `is_scrolling` false and
the line cache equal to the received rows, reversed (oldest first), with
colors stripped from `pfx` and `message`; when the reply is non-empty the
send queue gains the `input 0x<buffer of first row> /buffer set hotlist
-1` mark-read command followed by the `gui_hotlist` refresh request, and
is unchanged otherwise. -/
theorem backlog_reply_effects (w : Wee) (rows rows' : List LineData)
    (h : stripRows rows = Except.ok rows') :
    w.handle_one 0 (Except.ok (Msg.backlog_lines rows)) = Except.ok { w with
      is_scrolling := false,
      buf_lines := rows'.reverse,
      send_queue := w.send_queue ++ (match rows with
        | [] => []
        | first :: _ =>
            ["input 0x" ++ first.buffer ++ " /buffer set hotlist -1\n",
             "(gui_hotlist) hdata hotlist:gui_hotlist(*)\n"]) } := by
  show w.dispatch (Msg.backlog_lines rows) = _
  simp only [Wee.dispatch]
  rw [handle_lines_eq w false rows rows' h]
  cases rows <;> rfl

theorem backlog_reply_effects_witness :
    Wee.init.handle_one 0 (Except.ok (Msg.backlog_lines [tLine, tLine2])) =
      Except.ok { Wee.init with
        is_scrolling := false,
        buf_lines := [tLine2, tLine],
        send_queue := ["input 0xabc123 /buffer set hotlist -1\n",
                       "(gui_hotlist) hdata hotlist:gui_hotlist(*)\n"] } := by
  have := backlog_reply_effects Wee.init [tLine, tLine2] [tLine, tLine2] (by decide)
  simpa using this

/-- C5 counterexample: a state whose cache holds `tLine`; handling a
`scrollback_lines` reply carrying `tLine2` sets `is_scrolling` but leaves
the cache equal to `[tLine2]` — the previously cached line is gone, so the
cache is not retained across the reply. -/
theorem scrollback_retention_cex :
    w5.get_lines = [tLine] ∧
    (w5.handle_one 0 (Except.ok (Msg.scrollback_lines [tLine2]))).map Wee.get_lines
      = Except.ok [tLine2] ∧
    (w5.handle_one 0 (Except.ok (Msg.scrollback_lines [tLine2]))).map Wee.is_scrolling
      = Except.ok true ∧
    tLine ≠ tLine2 := by
  decide

/-- Auxiliary: `switch_current_buffer` only touches `current_buffer` and
the send queue. -/
theorem switch_fields (w : Wee) (n : String) :
    (w.switch_current_buffer n).current_buffer = n ∧
    (w.switch_current_buffer n).bufs = w.bufs ∧
    (w.switch_current_buffer n).buf_lines = w.buf_lines ∧
    (w.switch_current_buffer n).is_scrolling = w.is_scrolling ∧
    (w.switch_current_buffer n).completion = w.completion := by
  unfold Wee.switch_current_buffer Wee.get_current_buffer Wee.send
  dsimp only
  cases findBuffer n w.bufs <;> simp

/-- C5 (amended): issuing a scrollback request (`scroll_back`) never
clears the line cache — whenever the call completes, the cache is exactly
what it was (the only other path, `ptr_line = None`, aborts with a
`RefCell` `BorrowMutError` panic before mutating anything); but handling
the `scrollback_lines` reply, beyond marking `is_scrolling`, clears the
cache and refills it with the reply's rows reversed and color-stripped
(exactly as a backlog reply does), the send queue staying as it was (no
mark-read). -/
theorem scrollback_reply_effects (w : Wee) (k : Nat) (rows rows' : List LineData)
    (h : stripRows rows = Except.ok rows') :
    (∀ w', w.scroll_back k = Except.ok w' → w'.get_lines = w.get_lines) ∧
    w.handle_one 0 (Except.ok (Msg.scrollback_lines rows)) =
      Except.ok { w with is_scrolling := true, buf_lines := rows'.reverse } := by
  constructor
  · intro w' hw
    unfold Wee.scroll_back at hw
    cases hg : w.buf_lines.get? (w.buf_lines.length - (1 + k)) with
    | none =>
        simp only [hg] at hw
        injection hw with hw
        subst hw
        rfl
    | some last =>
      simp only [hg] at hw
      cases hp : last.ptr_line with
      | some p =>
          simp only [hp] at hw
          injection hw with hw
          subst hw
          simp [Wee.send, Wee.get_lines]
      | none =>
          simp [hp] at hw
  · show w.dispatch (Msg.scrollback_lines rows) = _
    simp only [Wee.dispatch]
    rw [handle_lines_eq w true rows rows' h]
    cases rows <;> simp

theorem scrollback_reply_effects_witness :
    (∀ w', w5.scroll_back 0 = Except.ok w' → w'.get_lines = w5.get_lines) ∧
    w5.handle_one 0 (Except.ok (Msg.scrollback_lines [tLine2, tLine])) =
      Except.ok { w5 with is_scrolling := true, buf_lines := [tLine, tLine2] } := by
  have := scrollback_reply_effects w5 0 [tLine2, tLine] [tLine2, tLine] (by decide)
  simpa using this

set_option maxRecDepth 100000 in
/-- C6 counterexample: from the empty session, switch to `core.weechat`,
receive the buffer list and a 100-row backlog — the cache then holds
exactly `BUFFER_CACHE_SIZE` lines — and one further `_buffer_line_added`
for the current buffer grows it to 101: the `≤ 100` bound is not preserved
by the operations that add lines. -/
theorem line_cache_bound_cex :
    (runMsgs w6start msgs6a).map (fun w => w.get_lines.length)
      = Except.ok BUFFER_CACHE_SIZE ∧
    (runMsgs w6start msgs6b).map (fun w => w.get_lines.length)
      = Except.ok (BUFFER_CACHE_SIZE + 1) := by
  decide

/-- C6 (amended): no handler truncates the cache to `BUFFER_CACHE_SIZE`:
a backlog or scrollback reply leaves exactly as many cached lines as the
reply has rows (the outbound requests ask the server for at most 100), and
`_buffer_line_added` either leaves the cache length unchanged or grows it
by one, without eviction — so the cache length is bounded by the reply
size plus the number of appended live lines, not by 100. -/
theorem line_cache_growth (w : Wee) (rows rows' : List LineData)
    (line line' : LineData)
    (h : stripRows rows = Except.ok rows')
    (hline : stripLine line = Except.ok line') :
    ((w.handle_one 0 (Except.ok (Msg.backlog_lines rows))).map
        (fun w' => w'.get_lines.length) = Except.ok rows.length) ∧
    ((w.handle_one 0 (Except.ok (Msg.scrollback_lines rows))).map
        (fun w' => w'.get_lines.length) = Except.ok rows.length) ∧
    ((w.handle_one 0 (Except.ok (Msg.buffer_line_added line))).map
        (fun w' => w'.get_lines.length) = Except.ok w.get_lines.length ∨
      (w.handle_one 0 (Except.ok (Msg.buffer_line_added line))).map
        (fun w' => w'.get_lines.length) = Except.ok (w.get_lines.length + 1)) := by
  have hlen := stripRows_length rows rows' h
  refine ⟨?_, ?_, ?_⟩
  · show ((w.dispatch (Msg.backlog_lines rows)).map _) = _
    simp only [Wee.dispatch]
    rw [handle_lines_eq w false rows rows' h]
    simp [Wee.get_lines, Except.map, hlen]
  · show ((w.dispatch (Msg.scrollback_lines rows)).map _) = _
    simp only [Wee.dispatch]
    rw [handle_lines_eq w true rows rows' h]
    simp [Wee.get_lines, Except.map, hlen]
  · show ((w.dispatch (Msg.buffer_line_added line)).map _) = _ ∨
      ((w.dispatch (Msg.buffer_line_added line)).map _) = _
    simp only [Wee.dispatch]
    cases hr : (lineAddedBufs w.current_buffer w.is_scrolling line w.bufs).2
    · left
      simp [hr, Wee.get_lines, Except.map]
    · right
      simp [hr, hline, Wee.get_lines, Except.map]

theorem line_cache_growth_witness :
    ((Wee.init.handle_one 0 (Except.ok (Msg.backlog_lines [tLine]))).map
        (fun w' => w'.get_lines.length) = Except.ok [tLine].length) ∧
    ((Wee.init.handle_one 0 (Except.ok (Msg.scrollback_lines [tLine]))).map
        (fun w' => w'.get_lines.length) = Except.ok [tLine].length) ∧
    ((Wee.init.handle_one 0 (Except.ok (Msg.buffer_line_added tLine2))).map
        (fun w' => w'.get_lines.length) = Except.ok Wee.init.get_lines.length ∨
      (Wee.init.handle_one 0 (Except.ok (Msg.buffer_line_added tLine2))).map
        (fun w' => w'.get_lines.length) = Except.ok (Wee.init.get_lines.length + 1)) :=
  line_cache_growth Wee.init [tLine] [tLine] tLine2 tLine2 (by decide) (by decide)

/-- Auxiliary: `setHot` only changes hotlist counters. -/
theorem setHot_map_zeroHot (hot : Hotlist) :
    ∀ l : List Buffer, (setHot hot l).map zeroHot = l.map zeroHot := by
  intro l
  induction l with
  | nil => rfl
  | cons x xs ih =>
      by_cases hx : x.ptr_buffer = hot.buffer
      · simp [setHot, hx, zeroHot]
      · simp [setHot, hx, ih]

/-- Auxiliary: buffers decoded from the wire carry a zero hotlist, so
re-zeroing them is the identity. -/
theorem map_zeroHot_decodeBuffer (rows : List WireBuffer) :
    (rows.map decodeBuffer).map zeroHot = rows.map decodeBuffer := by
  induction rows with
  | nil => rfl
  | cons r rs ih => simp [ih, zeroHot, decodeBuffer]

theorem mem_decodeBuffer_hotlist (rows : List WireBuffer) :
    ∀ b ∈ rows.map decodeBuffer, b.hotlist = (0, 0, 0, 0) := by
  intro b hb
  rcases List.mem_map.mp hb with ⟨r, _, rfl⟩
  rfl

theorem map_ptr_decodeBuffer (rows : List WireBuffer) :
    (rows.map decodeBuffer).map Buffer.ptr_buffer
      = rows.map WireBuffer.ptr_buffer := by
  induction rows with
  | nil => rfl
  | cons r rs ih => simp [ih, decodeBuffer]

/-- Auxiliary: applying one hotlist row to an all-zero buffer list with
distinct pointers sets exactly the matching buffer's counters. -/
theorem setHot_hotlist (hot : Hotlist) :
    ∀ l : List Buffer, (∀ b ∈ l, b.hotlist = (0, 0, 0, 0)) →
      (l.map Buffer.ptr_buffer).Nodup →
      ∀ b ∈ setHot hot l,
        b.hotlist = if b.ptr_buffer = hot.buffer then hot.count
          else (0, 0, 0, 0) := by
  intro l
  induction l with
  | nil => intro _ _ b hb; simp [setHot] at hb
  | cons x xs ih =>
      intro hzero hnodup b hb
      rw [List.map_cons, List.nodup_cons] at hnodup
      obtain ⟨hxnot, htail⟩ := hnodup
      simp only [setHot] at hb
      by_cases hx : x.ptr_buffer = hot.buffer
      · rw [if_pos hx] at hb
        rcases List.mem_cons.mp hb with rfl | hmem
        · simp [hx]
        · have hz := hzero b (List.mem_cons_of_mem x hmem)
          have hne : b.ptr_buffer ≠ hot.buffer := by
            intro hc
            have hin : b.ptr_buffer ∈ xs.map Buffer.ptr_buffer :=
              List.mem_map.mpr ⟨b, hmem, rfl⟩
            rw [hc, ← hx] at hin
            exact hxnot hin
          rw [hz, if_neg hne]
      · rw [if_neg hx] at hb
        rcases List.mem_cons.mp hb with rfl | hmem
        · rw [hzero _ (List.mem_cons_self _ _), if_neg hx]
        · exact ih (fun y hy => hzero y (List.mem_cons_of_mem x hy)) htail b hmem

/-- C3: after a `gui_buffers` reply (which replaces the buffer list with
the decoded rows, every hotlist reset to zero by the skipped serde field)
followed by a `gui_hotlist` reply with a single row for an existing
buffer, `get_buffers` holds the decoded buffers where exactly the matching
buffer carries the row's 4-tuple and every other buffer's hotlist is
`(0,0,0,0)`; and when `current_buffer` was empty the session auto-switches
to `core.weechat`. -/
theorem gui_hotlist_after_gui_buffers (w w1 w2 : Wee) (rows : List WireBuffer)
    (hot : Hotlist)
    (hdist : (rows.map WireBuffer.ptr_buffer).Nodup)
    (_hmem : hot.buffer ∈ rows.map WireBuffer.ptr_buffer)
    (h1 : w.handle_one 0 (Except.ok (Msg.gui_buffers rows)) = Except.ok w1)
    (h2 : w1.handle_one 0 (Except.ok (Msg.gui_hotlist [hot])) = Except.ok w2) :
    (w2.get_buffers.map zeroHot = rows.map decodeBuffer) ∧
    (∀ b ∈ w2.get_buffers,
        b.hotlist = if b.ptr_buffer = hot.buffer then hot.count
          else (0, 0, 0, 0)) ∧
    (w.current_buffer = "" → w2.current_buffer = "core.weechat") := by
  have h1' : w.dispatch (Msg.gui_buffers rows) = Except.ok w1 := h1
  simp only [Wee.dispatch, Except.ok.injEq] at h1'
  subst h1'
  have h2' : ({ w with bufs := rows.map decodeBuffer } : Wee).dispatch
      (Msg.gui_hotlist [hot]) = Except.ok w2 := h2
  simp only [Wee.dispatch, List.foldl, map_zeroHot_decodeBuffer] at h2'
  have hbufs : ∀ b ∈ setHot hot (rows.map decodeBuffer),
      b.hotlist = if b.ptr_buffer = hot.buffer then hot.count
        else (0, 0, 0, 0) := by
    refine setHot_hotlist hot (rows.map decodeBuffer)
      (mem_decodeBuffer_hotlist rows) ?_
    rw [map_ptr_decodeBuffer]
    exact hdist
  have hmapz : (setHot hot (rows.map decodeBuffer)).map zeroHot
      = rows.map decodeBuffer := by
    rw [setHot_map_zeroHot, map_zeroHot_decodeBuffer]
  by_cases hc : w.current_buffer = ""
  · rw [if_pos hc] at h2'
    injection h2' with h2''
    subst h2''
    have hsw := switch_fields
      ({ w with bufs := setHot hot (rows.map decodeBuffer) } : Wee) "core.weechat"
    refine ⟨?_, ?_, fun _ => hsw.1⟩
    · show (Wee.get_buffers _).map zeroHot = _
      rw [Wee.get_buffers, hsw.2.1]
      exact hmapz
    · intro b hbm
      rw [Wee.get_buffers, hsw.2.1] at hbm
      exact hbufs b hbm
  · rw [if_neg hc] at h2'
    injection h2' with h2''
    subst h2''
    exact ⟨hmapz, hbufs, fun hce => absurd hce hc⟩

theorem gui_hotlist_after_gui_buffers_witness :
    (Wee.init.handle_one 0 (Except.ok (Msg.gui_buffers [tBuf, tBuf2]))
      = Except.ok w3a) ∧
    (w3a.handle_one 0 (Except.ok (Msg.gui_hotlist [tHot])) = Except.ok w3b) ∧
    (w3b.get_buffers.map zeroHot = [tBuf, tBuf2].map decodeBuffer) ∧
    (∀ b ∈ w3b.get_buffers,
      b.hotlist = if b.ptr_buffer = tHot.buffer then tHot.count
        else (0, 0, 0, 0)) ∧
    (Wee.init.current_buffer = "" → w3b.current_buffer = "core.weechat") := by
  refine ⟨by decide, by decide, ?_⟩
  exact gui_hotlist_after_gui_buffers Wee.init w3a w3b [tBuf, tBuf2] tHot
    (by decide) (by decide) (by decide) (by decide)

/-- Auxiliary: the `_buffer_line_added` loop at the first matching buffer:
either the line is flagged for appending (list untouched) or the matched
buffer's hotlist slot selected by `notify_level` is incremented. -/
theorem lineAddedBufs_split (current : String) (scr : Bool) (line : LineData)
    (pre post : List Buffer) (b : Buffer)
    (hpre : ∀ x ∈ pre, x.ptr_buffer ≠ line.buffer)
    (hb : b.ptr_buffer = line.buffer) :
    lineAddedBufs current scr line (pre ++ b :: post) =
      if b.full_name = current ∧ scr = false then (pre ++ b :: post, true)
      else (pre ++ { b with hotlist :=
          (if line.notify_level = 0 then b.hotlist.1 + 1 else b.hotlist.1,
           if line.notify_level = 1 then b.hotlist.2.1 + 1 else b.hotlist.2.1,
           if line.notify_level = 2 then b.hotlist.2.2.1 + 1 else b.hotlist.2.2.1,
           if line.notify_level = 3 then b.hotlist.2.2.2 + 1 else b.hotlist.2.2.2) }
        :: post, false) := by
  induction pre with
  | nil =>
      simp only [List.nil_append, lineAddedBufs]
      rw [if_neg (fun hne => hne hb)]
      by_cases hc : b.full_name = current ∧ scr = false
      · rw [if_pos hc, if_pos hc]
        simp [hb]
      · rw [if_neg hc, if_neg hc]
  | cons x xs ih =>
      have hx := hpre x (List.mem_cons_self x xs)
      have ih' := ih (fun y hy => hpre y (List.mem_cons_of_mem x hy))
      simp only [List.cons_append, lineAddedBufs, if_pos hx, List.append_eq, ih']
      by_cases hc : b.full_name = current ∧ scr = false
      · simp only [if_pos hc]
      · simp only [if_neg hc]

/-- C4: a `_buffer_line_added` event whose line's buffer pointer matches a
known buffer: when that buffer is the current one and the session is not
scrolling, exactly the color-stripped line is appended to the cache and
everything else (buffers and their hotlists included) is unchanged;
otherwise the cache is unchanged and the matched buffer's hotlist slot
selected by `notify_level` (0→low, 1→message, 2→private, 3→highlight) is
incremented, any other `notify_level` leaving all four counters as they
were. -/
theorem buffer_line_added_cases (w : Wee) (line line' : LineData)
    (pre post : List Buffer) (b : Buffer)
    (hsplit : w.bufs = pre ++ b :: post)
    (hpre : ∀ x ∈ pre, x.ptr_buffer ≠ line.buffer)
    (hb : b.ptr_buffer = line.buffer)
    (hstrip : stripLine line = Except.ok line') :
    ((b.full_name = w.current_buffer ∧ w.is_scrolling = false) →
      w.handle_one 0 (Except.ok (Msg.buffer_line_added line)) =
        Except.ok { w with buf_lines := w.buf_lines ++ [line'] }) ∧
    (¬ (b.full_name = w.current_buffer ∧ w.is_scrolling = false) →
      w.handle_one 0 (Except.ok (Msg.buffer_line_added line)) =
        Except.ok { w with bufs := pre ++ { b with hotlist :=
          (if line.notify_level = 0 then b.hotlist.1 + 1 else b.hotlist.1,
           if line.notify_level = 1 then b.hotlist.2.1 + 1 else b.hotlist.2.1,
           if line.notify_level = 2 then b.hotlist.2.2.1 + 1 else b.hotlist.2.2.1,
           if line.notify_level = 3 then b.hotlist.2.2.2 + 1 else b.hotlist.2.2.2) }
          :: post }) := by
  have hsp := lineAddedBufs_split w.current_buffer w.is_scrolling line
    pre post b hpre hb
  constructor
  · intro hc
    show w.dispatch (Msg.buffer_line_added line) = _
    simp only [Wee.dispatch, hsplit, hsp, if_pos hc]
    rw [hstrip, ← hsplit]
    rfl
  · intro hc
    show w.dispatch (Msg.buffer_line_added line) = _
    simp only [Wee.dispatch, hsplit, hsp, if_neg hc]
    rfl

theorem buffer_line_added_cases_witness :
    (((decodeBuffer tBuf).full_name = w5.current_buffer ∧ w5.is_scrolling = false) →
      w5.handle_one 0 (Except.ok (Msg.buffer_line_added tLine)) =
        Except.ok { w5 with buf_lines := w5.buf_lines ++ [tLine] }) ∧
    (¬ ((decodeBuffer tBuf).full_name = w5.current_buffer ∧ w5.is_scrolling = false) →
      w5.handle_one 0 (Except.ok (Msg.buffer_line_added tLine)) =
        Except.ok { w5 with bufs := [] ++ { (decodeBuffer tBuf) with hotlist :=
          (if tLine.notify_level = 0 then (decodeBuffer tBuf).hotlist.1 + 1
            else (decodeBuffer tBuf).hotlist.1,
           if tLine.notify_level = 1 then (decodeBuffer tBuf).hotlist.2.1 + 1
            else (decodeBuffer tBuf).hotlist.2.1,
           if tLine.notify_level = 2 then (decodeBuffer tBuf).hotlist.2.2.1 + 1
            else (decodeBuffer tBuf).hotlist.2.2.1,
           if tLine.notify_level = 3 then (decodeBuffer tBuf).hotlist.2.2.2 + 1
            else (decodeBuffer tBuf).hotlist.2.2.2) }
          :: [] }) :=
  buffer_line_added_cases w5 tLine tLine [] [] (decodeBuffer tBuf)
    (by decide) (by simp) (by decide) (by decide)

/-- The nine color-stripping reference vectors of the repository's
`test_strip_colors`, all stripping to `foobar`. -/
theorem strip_colors_reference_vectors :
    strip_colors "\x1904foobar" = some "foobar" ∧
    strip_colors "foo\x1901bar" = some "foobar" ∧
    strip_colors "foo\x19F01bar" = some "foobar" ∧
    strip_colors "foo\x19B22bar" = some "foobar" ∧
    strip_colors "foo\x19F@12345bar" = some "foobar" ∧
    strip_colors "foo\x19@12345,23bar" = some "foobar" ∧
    strip_colors "foo\x19@12345,@12345bar" = some "foobar" ∧
    strip_colors "foo\x19@12345~@12345bar" = some "foobar" ∧
    strip_colors "foo\x19*@12345~@12345bar" = some "foobar" := by
  decide

end Weesels
